import Mathlib

/-!
Shallow embedding of the authentication views of `api/views/auth.py`
(login, logout, password reset request and reset completion).

Users and revoked-token records are embedded as Lean structures; the
database session is embedded as explicit list-valued state.  External
collaborators that the views import but that live outside the audited
module — the password-hash primitives (`verify_password`,
`generate_password_hash`), the token issuer (`access_token_for_user`),
the email sender (`send_message`), and the random UUID generator
(`uuid.uuid4`) — appear as explicit function or value parameters, which
matches the spec's treatment of them as black-box collaborators.
UUIDs are embedded as natural numbers; unix timestamps as integers.
-/

/-- A stored user record: id, unique lowercase email, stored password
hash, ban flag, and an optional single pending reset identifier. -/
structure User where
  id : Nat
  email : String
  password : String
  is_banned : Bool
  reset_uuid : Option Nat
deriving Repr, DecidableEq

/-- A revocation-store record, as created by `log_out`:
token id (jti), owning user id, and the token's own expiry. -/
structure UserRevokedToken where
  revoked_uuid : Nat
  user_id : Nat
  expires : Int
deriving Repr, DecidableEq

/-- The decoded claims of a presented JWT that `log_out` reads:
subject, unique token id, and expiry as a unix timestamp. -/
structure JwtPayload where
  sub : Nat
  jti : Nat
  exp : Int
deriving Repr, DecidableEq

/-- The error taxonomy raised by the auth views.  `credentials` maps to
401, `bannedUser` to 403, `notFound` to 404; `service` is the generic
`APIException` the reset-request view raises on delivery failure. -/
inductive AuthError where
  | credentials (detail : String)
  | bannedUser
  | notFound (detail : String)
  | service (detail : String)
deriving Repr, DecidableEq

/-- HTTP status for each error class (the `service` value is the
500-class status the spec assigns to delivery failures). -/
def AuthError.status : AuthError → Nat
  | .credentials _ => 401
  | .bannedUser => 403
  | .notFound _ => 404
  | .service _ => 500

/-- Successful response body of `reset_password`. -/
structure AuthTokenOut where
  access_token : String
  token_type : String
deriving Repr, DecidableEq

/-- Successful response body of `log_in` (it additionally echoes the
user record). -/
structure LoginResponse where
  access_token : String
  token_type : String
  user : User
deriving Repr, DecidableEq

/-- Embeds Python's `str.lower()` as applied to the submitted email:
lowercase each character.  (Defined over the character list so that it
evaluates by kernel reduction.) -/
def pyLower (s : String) : String := String.mk (s.data.map Char.toLower)

/-- Replace the first element satisfying `p` by its image under `f`;
embeds the SQLAlchemy pattern of mutating the record returned by
`query(...).filter(...).first()` and committing. -/
def updateFirst (p : User → Bool) (f : User → User) : List User → List User
  | [] => []
  | u :: rest => if p u then f u :: rest else u :: updateFirst p f rest

/-- The view `log_in` (POST /token): lowercase the submitted username, look up
the first user with that email, check the password against the stored
hash, check the ban flag, and issue a bearer token. -/
def log_in (verify : String → String → Bool) (issue : User → String)
    (users : List User) (username password : String) :
    Except AuthError LoginResponse :=
  let email := pyLower username
  match users.find? (fun u => u.email == email) with
  | none => .error (.credentials "Incorrect username or password")
  | some user =>
    if verify password user.password then
      if user.is_banned then .error .bannedUser
      else .ok { access_token := issue user, token_type := "bearer", user := user }
    else .error (.credentials "Incorrect username or password")

/-- The view `log_out` (DELETE /token): append a revocation record carrying the
presented token's jti, the authenticated user's id, and the token's own
`exp` claim.  The current time `now` is passed to show the view never
consults it. -/
def log_out (revoked : List UserRevokedToken) (payload : JwtPayload)
    (current_user : User) (now : Int) : List UserRevokedToken × String :=
  let _ := now
  (revoked ++ [{ revoked_uuid := payload.jti, user_id := current_user.id,
                 expires := payload.exp }],
   "Token successfully revoked.")

/-- The view `request_password_reset` (POST /reset): lowercase the email, find
the first matching user, reject unknown (404) or banned (403) accounts,
overwrite the user's reset identifier with the fresh UUID and commit,
then attempt delivery; `deliveryOk` is the boolean result of the
external `send_message` collaborator.  The debug-only logging branch
has no observable effect on the state and is omitted. -/
def request_password_reset (fresh : Nat) (deliveryOk : Bool)
    (users : List User) (email : String) :
    List User × Except AuthError String :=
  let e := pyLower email
  match users.find? (fun u => u.email == e) with
  | none => (users, .error (.notFound "No account found for email."))
  | some user =>
    if user.is_banned then (users, .error .bannedUser)
    else
      let updated : User := { user with reset_uuid := some fresh }
      let users2 := updateFirst (fun u => u.email == e) (fun _ => updated) users
      if deliveryOk then
        (users2, .ok "A link to reset your password has been sent to your email!")
      else
        (users2,
         .error (.service "Unable to send password reset email; please contact the site owner."))

/-- The view `reset_password` (POST /reset/token): find the first user holding
the submitted reset identifier (404 if none), then in one commit
replace their stored hash with the hash of the new password and clear
the identifier, and issue a bearer token for the updated user. -/
def reset_password (genHash : String → String) (issue : User → String)
    (users : List User) (token : Nat) (password : String) :
    List User × Except AuthError AuthTokenOut :=
  match users.find? (fun u => u.reset_uuid == some token) with
  | none =>
    (users, .error (.notFound "Token not found. Please request a new password reset."))
  | some user =>
    let updated : User := { user with password := genHash password, reset_uuid := none }
    (updateFirst (fun u => u.reset_uuid == some token) (fun _ => updated) users,
     .ok { access_token := issue updated, token_type := "bearer" })

/-- Modelled from the spec: the revocation store's `revoke(jti,
user_id, expires_at)` operation (the `UserRevokedToken` persistence
layer is not part of the audited module).  Per the spec it is an
idempotent insert: a duplicate jti is not an error, the store is left
unchanged. -/
def revoke (store : List UserRevokedToken) (jti : Nat) (user_id : Nat)
    (expires_at : Int) : List UserRevokedToken :=
  if store.any (fun r => r.revoked_uuid == jti) then store
  else store ++ [{ revoked_uuid := jti, user_id := user_id, expires := expires_at }]

/-- Number of occurrences of a token id in the revocation store. -/
def countJti (store : List UserRevokedToken) (jti : Nat) : Nat :=
  (store.filter (fun r => r.revoked_uuid == jti)).length

/-- Number of users holding a given pending reset identifier. -/
def countReset (users : List User) (t : Nat) : Nat :=
  (users.filter (fun u => u.reset_uuid == some t)).length

/- Concrete instances of the black-box collaborators, used only to
instantiate the theorems below at closed inputs. -/

/-- A concrete stand-in for `generate_password_hash`. -/
def demoHash (p : String) : String := "h:" ++ p

/-- A concrete stand-in for `verify_password`, matching `demoHash`. -/
def demoVerify (p h : String) : Bool := h == "h:" ++ p

/-- A concrete stand-in for `access_token_for_user`. -/
def demoIssue (u : User) : String := "token-" ++ toString u.id

/-- A concrete user with a pending reset identifier. -/
def demoUserReset : User :=
  { id := 1, email := "alice@example.com", password := "h:old",
    is_banned := false, reset_uuid := some 7 }

/-- A concrete user with no pending reset identifier. -/
def demoUserPlain : User :=
  { id := 2, email := "bob@example.com", password := "h:pw2",
    is_banned := false, reset_uuid := none }

/-- A concrete banned user holding a pending reset identifier. -/
def demoUserBanned : User :=
  { id := 3, email := "carol@example.com", password := "h:pw3",
    is_banned := true, reset_uuid := some 9 }

/- Structural lemmas about lookup and first-match update. -/

/-- A successful `find?` splits the list at the first match. -/
theorem find?_decomp {p : User → Bool} {l : List User} {u : User}
    (h : l.find? p = some u) :
    ∃ l1 l2, l = l1 ++ u :: l2 ∧ (∀ v ∈ l1, p v = false) ∧ p u = true := by
  induction l with
  | nil => simp [List.find?] at h
  | cons a rest ih =>
    by_cases hp : p a
    · refine ⟨[], rest, ?_, ?_, ?_⟩
      · simp [List.find?, hp] at h
        simp [h]
      · intro v hv; simp at hv
      · simp [List.find?, hp] at h
        simpa [← h] using hp
    · have h2 : rest.find? p = some u := by
        simpa [List.find?, hp] using h
      obtain ⟨l1, l2, heq, hl1, hu⟩ := ih h2
      refine ⟨a :: l1, l2, by simp [heq], ?_, hu⟩
      intro v hv
      rcases List.mem_cons.mp hv with rfl | hv2
      · simpa using hp
      · exact hl1 v hv2

/-- Updating rewrites exactly the first match. -/
theorem updateFirst_append {p : User → Bool} {f : User → User}
    {l1 l2 : List User} {u : User}
    (hl1 : ∀ v ∈ l1, p v = false) (hu : p u = true) :
    updateFirst p f (l1 ++ u :: l2) = l1 ++ f u :: l2 := by
  induction l1 with
  | nil => simp [updateFirst, hu]
  | cons a rest ih =>
    have ha : p a = false := hl1 a (by simp)
    have hrest : ∀ v ∈ rest, p v = false := fun v hv => hl1 v (by simp [hv])
    simp [updateFirst, ha, ih hrest]

/-- Lookup skips a prefix with no matches. -/
theorem find?_append_no_match {p : User → Bool} {l1 l2 : List User}
    (hl1 : ∀ v ∈ l1, p v = false) :
    (l1 ++ l2).find? p = l2.find? p := by
  induction l1 with
  | nil => simp
  | cons a rest ih =>
    have ha : p a = false := hl1 a (by simp)
    have hrest : ∀ v ∈ rest, p v = false := fun v hv => hl1 v (by simp [hv])
    simp [List.find?, ha, ih hrest]

/-- If no element matches, `find?` returns `none`. -/
theorem find?_none_of_all {p : User → Bool} {l : List User}
    (h : ∀ v ∈ l, p v = false) : l.find? p = none := by
  induction l with
  | nil => simp
  | cons a rest ih =>
    have ha : p a = false := h a (by simp)
    have hrest : ∀ v ∈ rest, p v = false := fun v hv => h v (by simp [hv])
    simp [List.find?, ha, ih hrest]

/-- The committed state of a successful reset request: the first user
matching the lowercased email gets the fresh identifier. -/
theorem request_password_reset_state (fresh : Nat) (deliveryOk : Bool)
    (users : List User) (email : String) (u : User)
    (hfind : users.find? (fun v => v.email == pyLower email) = some u)
    (hban : u.is_banned = false) :
    (request_password_reset fresh deliveryOk users email).1 =
      updateFirst (fun v => v.email == pyLower email)
        (fun _ => { u with reset_uuid := some fresh }) users := by
  cases deliveryOk <;> simp [request_password_reset, hfind, hban]

/-- Revoking leaves the store unchanged when the jti is present. -/
theorem revoke_already (store : List UserRevokedToken) (jti uid : Nat)
    (expires_at : Int)
    (h : store.any (fun r => r.revoked_uuid == jti) = true) :
    revoke store jti uid expires_at = store := by
  simp [revoke, h]

/- Claim theorems. -/

/-- Claim C2: `log_in` succeeds with a bearer token exactly when the
lowercased submitted email matches a stored user, the password
verifies against the stored hash, and the user is not banned; it
fails with a 401 credentials error when the email matches no user or
the password does not verify, and with the 403 banned error when
credentials are correct but the user is banned. -/
theorem log_in_characterization (verify : String → String → Bool)
    (issue : User → String) (users : List User) (username password : String) :
    (users.find? (fun u => u.email == pyLower username) = none →
      log_in verify issue users username password =
        .error (.credentials "Incorrect username or password"))
  ∧ (∀ u, users.find? (fun v => v.email == pyLower username) = some u →
      verify password u.password = false →
      log_in verify issue users username password =
        .error (.credentials "Incorrect username or password"))
  ∧ (∀ u, users.find? (fun v => v.email == pyLower username) = some u →
      verify password u.password = true → u.is_banned = true →
      log_in verify issue users username password = .error .bannedUser)
  ∧ (∀ u, users.find? (fun v => v.email == pyLower username) = some u →
      verify password u.password = true → u.is_banned = false →
      log_in verify issue users username password =
        .ok { access_token := issue u, token_type := "bearer", user := u })
  ∧ (AuthError.credentials "Incorrect username or password").status = 401
  ∧ AuthError.bannedUser.status = 403 := by
  refine ⟨?_, ?_, ?_, ?_, rfl, rfl⟩
  · intro h; simp [log_in, h]
  · intro u h hv; simp [log_in, h, hv]
  · intro u h hv hb; simp [log_in, h, hv, hb]
  · intro u h hv hb; simp [log_in, h, hv, hb]

/-- Witness for C2: a concrete successful login. -/
theorem log_in_characterization_witness :
    log_in demoVerify demoIssue [demoUserPlain] "Bob@Example.com" "pw2" =
      .ok { access_token := "token-2", token_type := "bearer",
            user := demoUserPlain } :=
  (log_in_characterization demoVerify demoIssue [demoUserPlain]
    "Bob@Example.com" "pw2").2.2.2.1 demoUserPlain (by decide) (by decide) (by decide)

/-- Claim C3: the revocation record committed by `log_out` carries the
presented token's jti, the authenticated user's id, and the token's
own `exp` claim; the record is independent of the revocation time. -/
theorem log_out_revocation_record (revoked : List UserRevokedToken)
    (payload : JwtPayload) (current_user : User) (now : Int) :
    (log_out revoked payload current_user now).1 =
      revoked ++ [{ revoked_uuid := payload.jti, user_id := current_user.id,
                    expires := payload.exp }]
  ∧ (log_out revoked payload current_user now).2 = "Token successfully revoked."
  ∧ (∀ now2, log_out revoked payload current_user now =
      log_out revoked payload current_user now2) := by
  refine ⟨rfl, rfl, fun now2 => rfl⟩

/-- Claim C6: a login with an unknown email and a login with a known
email but a wrong password produce the identical observable failure:
the same 401 credentials error with the same detail string. -/
theorem log_in_no_email_oracle (verify : String → String → Bool)
    (issue : User → String) (users1 users2 : List User)
    (e1 p1 e2 p2 : String) (u : User)
    (h1 : users1.find? (fun v => v.email == pyLower e1) = none)
    (h2 : users2.find? (fun v => v.email == pyLower e2) = some u)
    (h3 : verify p2 u.password = false) :
    log_in verify issue users1 e1 p1 =
      .error (.credentials "Incorrect username or password")
  ∧ log_in verify issue users2 e2 p2 =
      .error (.credentials "Incorrect username or password")
  ∧ log_in verify issue users1 e1 p1 = log_in verify issue users2 e2 p2
  ∧ (AuthError.credentials "Incorrect username or password").status = 401 := by
  have a1 : log_in verify issue users1 e1 p1 =
      .error (.credentials "Incorrect username or password") := by
    simp [log_in, h1]
  have a2 : log_in verify issue users2 e2 p2 =
      .error (.credentials "Incorrect username or password") := by
    simp [log_in, h2, h3]
  exact ⟨a1, a2, a1.trans a2.symm, rfl⟩

/-- Witness for C6: unknown email versus wrong password, concretely. -/
theorem log_in_no_email_oracle_witness :
    log_in demoVerify demoIssue [] "nobody@example.com" "x" =
      .error (.credentials "Incorrect username or password")
  ∧ log_in demoVerify demoIssue [demoUserPlain] "bob@example.com" "wrong" =
      .error (.credentials "Incorrect username or password") := by
  have h := log_in_no_email_oracle demoVerify demoIssue []
    [demoUserPlain] "nobody@example.com" "x" "bob@example.com" "wrong"
    demoUserPlain (by decide) (by decide) (by decide)
  exact ⟨h.1, h.2.1⟩

/-- Claim C10: `log_in` verifies credentials before the ban check — a
banned user submitting a wrong password gets the 401 credentials
error, and the 403 banned error is only ever produced when the
submitted password verifies. -/
theorem log_in_credentials_before_ban (verify : String → String → Bool)
    (issue : User → String) (users : List User)
    (username password : String) (u : User)
    (hfind : users.find? (fun v => v.email == pyLower username) = some u)
    (hban : u.is_banned = true)
    (hv : verify password u.password = false) :
    log_in verify issue users username password =
      .error (.credentials "Incorrect username or password")
  ∧ (AuthError.credentials "Incorrect username or password").status = 401
  ∧ (∀ users2 un2 pw2, log_in verify issue users2 un2 pw2 = .error .bannedUser →
      ∃ w, users2.find? (fun v => v.email == pyLower un2) = some w ∧
        verify pw2 w.password = true) := by
  refine ⟨by simp [log_in, hfind, hv], rfl, ?_⟩
  intro users2 un2 pw2 hres
  cases hw : users2.find? (fun v => v.email == pyLower un2) with
  | none => simp [log_in, hw] at hres
  | some w =>
    refine ⟨w, rfl, ?_⟩
    cases hv2 : verify pw2 w.password with
    | false => simp [log_in, hw, hv2] at hres
    | true => rfl

/-- Witness for C10: a banned user with a wrong password gets 401. -/
theorem log_in_credentials_before_ban_witness :
    log_in demoVerify demoIssue [demoUserBanned] "carol@example.com" "wrong" =
      .error (.credentials "Incorrect username or password") :=
  (log_in_credentials_before_ban demoVerify demoIssue [demoUserBanned]
    "carol@example.com" "wrong" demoUserBanned (by decide) (by decide) (by decide)).1

/-- A reset-identifier count of zero means no user holds it. -/
theorem countReset_eq_zero_iff {l : List User} {t : Nat} :
    countReset l t = 0 ↔ ∀ v ∈ l, (v.reset_uuid == some t) = false := by
  simp [countReset, List.length_eq_zero, List.filter_eq_nil_iff]

/-- With exactly one holder of `t`, splitting the list at that holder
leaves a suffix with no holder of `t`. -/
theorem countReset_one_suffix {l1 l2 : List User} {u : User} {t : Nat}
    (hl1 : ∀ v ∈ l1, (v.reset_uuid == some t) = false)
    (hu : (u.reset_uuid == some t) = true)
    (hcount : countReset (l1 ++ u :: l2) t = 1) :
    ∀ v ∈ l2, (v.reset_uuid == some t) = false := by
  have h1 : countReset l1 t = 0 := countReset_eq_zero_iff.mpr hl1
  have hsplit : countReset (l1 ++ u :: l2) t =
      countReset l1 t + countReset (u :: l2) t := by
    simp [countReset, List.filter_append]
  have hcons : countReset (u :: l2) t = countReset l2 t + 1 := by
    simp [countReset, List.filter_cons, hu]
  have : countReset l2 t = 0 := by omega
  exact countReset_eq_zero_iff.mp this

/-- Claim C7: `request_password_reset` fails with the 404 not-found
error exactly when the lowercased email matches no user; fails with
the 403 banned error when the matching user is banned; and otherwise
(delivery succeeding) returns the success message having persisted a
non-null reset identifier for that user. -/
theorem request_password_reset_characterization (fresh : Nat)
    (deliveryOk : Bool) (users : List User) (email : String) :
    ((request_password_reset fresh deliveryOk users email).2 =
        .error (.notFound "No account found for email.") ↔
      users.find? (fun u => u.email == pyLower email) = none)
  ∧ (∀ u, users.find? (fun v => v.email == pyLower email) = some u →
      u.is_banned = true →
      request_password_reset fresh deliveryOk users email =
        (users, .error .bannedUser))
  ∧ (∀ u, users.find? (fun v => v.email == pyLower email) = some u →
      u.is_banned = false → deliveryOk = true →
      (request_password_reset fresh deliveryOk users email).2 =
        .ok "A link to reset your password has been sent to your email!"
    ∧ (∃ l1 l2, users = l1 ++ u :: l2 ∧
        (request_password_reset fresh deliveryOk users email).1 =
          l1 ++ { u with reset_uuid := some fresh } :: l2)
    ∧ ({ u with reset_uuid := some fresh } : User).reset_uuid ≠ none)
  ∧ (AuthError.notFound "No account found for email.").status = 404
  ∧ AuthError.bannedUser.status = 403 := by
  refine ⟨⟨?_, ?_⟩, ?_, ?_, rfl, rfl⟩
  · intro h
    cases hf : users.find? (fun v => v.email == pyLower email) with
    | none => rfl
    | some w =>
      cases hb : w.is_banned <;> cases hd : deliveryOk <;>
        simp [request_password_reset, hf, hb, hd] at h
  · intro h
    simp [request_password_reset, h]
  · intro u hf hb
    simp [request_password_reset, hf, hb]
  · intro u hf hb hd
    obtain ⟨l1, l2, heq, hl1, hpu⟩ := find?_decomp hf
    refine ⟨by simp [request_password_reset, hf, hb, hd], ⟨l1, l2, heq, ?_⟩, by simp⟩
    have hstate : (request_password_reset fresh deliveryOk users email).1 =
        updateFirst (fun v => v.email == pyLower email)
          (fun _ => { u with reset_uuid := some fresh }) users := by
      simp [request_password_reset, hf, hb, hd]
    rw [hstate, heq]
    exact updateFirst_append hl1 hpu

/-- Witness for C7: a known, non-banned email gets the success message
and a persisted identifier. -/
theorem request_password_reset_characterization_witness :
    (request_password_reset 11 true [demoUserPlain] "bob@example.com").2 =
      .ok "A link to reset your password has been sent to your email!"
  ∧ (∃ l1 l2, [demoUserPlain] = l1 ++ demoUserPlain :: l2 ∧
      (request_password_reset 11 true [demoUserPlain] "bob@example.com").1 =
        l1 ++ { demoUserPlain with reset_uuid := some 11 } :: l2)
  ∧ ({ demoUserPlain with reset_uuid := some 11 } : User).reset_uuid ≠ none :=
  (request_password_reset_characterization 11 true [demoUserPlain]
    "bob@example.com").2.2.1 demoUserPlain (by decide) (by decide) rfl

/-- Claim C5: when the email collaborator reports failure for an
existing, non-banned account, the operation fails with the generic
service error, yet the freshly persisted reset identifier remains
stored; the error detail is a constant, identical across accounts. -/
theorem request_password_reset_delivery_failure (fresh : Nat)
    (users : List User) (email : String) (u : User)
    (hfind : users.find? (fun v => v.email == pyLower email) = some u)
    (hban : u.is_banned = false) :
    (request_password_reset fresh false users email).2 =
      .error (.service
        "Unable to send password reset email; please contact the site owner.")
  ∧ (∃ l1 l2, users = l1 ++ u :: l2 ∧
      (request_password_reset fresh false users email).1 =
        l1 ++ { u with reset_uuid := some fresh } :: l2)
  ∧ (∀ users2 email2 u2,
      users2.find? (fun v => v.email == pyLower email2) = some u2 →
      u2.is_banned = false →
      (request_password_reset fresh false users2 email2).2 =
        (request_password_reset fresh false users email).2) := by
  have herr : ∀ users3 email3 u3,
      users3.find? (fun v => v.email == pyLower email3) = some u3 →
      u3.is_banned = false →
      (request_password_reset fresh false users3 email3).2 =
        .error (.service
          "Unable to send password reset email; please contact the site owner.") := by
    intro users3 email3 u3 hf3 hb3
    simp [request_password_reset, hf3, hb3]
  obtain ⟨l1, l2, heq, hl1, hpu⟩ := find?_decomp hfind
  refine ⟨herr users email u hfind hban, ⟨l1, l2, heq, ?_⟩, ?_⟩
  · have hstate : (request_password_reset fresh false users email).1 =
        updateFirst (fun v => v.email == pyLower email)
          (fun _ => { u with reset_uuid := some fresh }) users := by
      simp [request_password_reset, hfind, hban]
    rw [hstate, heq]
    exact updateFirst_append hl1 hpu
  · intro users2 email2 u2 hf2 hb2
    rw [herr users2 email2 u2 hf2 hb2, herr users email u hfind hban]

/-- Witness for C5: delivery failure for a concrete account leaves the
identifier persisted and raises the service error. -/
theorem request_password_reset_delivery_failure_witness :
    (request_password_reset 13 false [demoUserPlain] "bob@example.com").2 =
      .error (.service
        "Unable to send password reset email; please contact the site owner.")
  ∧ (∃ l1 l2, [demoUserPlain] = l1 ++ demoUserPlain :: l2 ∧
      (request_password_reset 13 false [demoUserPlain] "bob@example.com").1 =
        l1 ++ { demoUserPlain with reset_uuid := some 13 } :: l2) := by
  have h := request_password_reset_delivery_failure 13 [demoUserPlain]
    "bob@example.com" demoUserPlain (by decide) (by decide)
  exact ⟨h.1, h.2.1⟩

/-- Claim C1: redeeming a pending reset identifier succeeds, in one
state transition replaces the stored hash with the hash of the new
password and clears the identifier, returns a bearer token for the
updated user, and a subsequent redemption of the same identifier
fails with the 404 not-found error. -/
theorem reset_password_consume (genHash : String → String)
    (issue : User → String) (users : List User) (t : Nat)
    (pw pw2 : String) (u : User)
    (hfind : users.find? (fun v => v.reset_uuid == some t) = some u)
    (huniq : countReset users t = 1) :
    (reset_password genHash issue users t pw).2 =
      .ok { access_token :=
              issue { u with password := genHash pw, reset_uuid := none },
            token_type := "bearer" }
  ∧ (∃ l1 l2, users = l1 ++ u :: l2 ∧
      (reset_password genHash issue users t pw).1 =
        l1 ++ { u with password := genHash pw, reset_uuid := none } :: l2)
  ∧ (reset_password genHash issue users t pw).1.find?
      (fun v => v.reset_uuid == some t) = none
  ∧ (reset_password genHash issue
      (reset_password genHash issue users t pw).1 t pw2).2 =
      .error (.notFound "Token not found. Please request a new password reset.")
  ∧ (AuthError.notFound
      "Token not found. Please request a new password reset.").status = 404 := by
  obtain ⟨l1, l2, heq, hl1, hpu⟩ := find?_decomp hfind
  have hl2 : ∀ v ∈ l2, (v.reset_uuid == some t) = false :=
    countReset_one_suffix hl1 hpu (heq ▸ huniq)
  have hstate : (reset_password genHash issue users t pw).1 =
      l1 ++ { u with password := genHash pw, reset_uuid := none } :: l2 := by
    have hu2 : (reset_password genHash issue users t pw).1 =
        updateFirst (fun v => v.reset_uuid == some t)
          (fun _ => { u with password := genHash pw, reset_uuid := none }) users := by
      simp [reset_password, hfind]
    rw [hu2, heq]
    exact updateFirst_append hl1 hpu
  have hnone : (reset_password genHash issue users t pw).1.find?
      (fun v => v.reset_uuid == some t) = none := by
    rw [hstate]
    apply find?_none_of_all
    intro v hv
    rcases List.mem_append.mp hv with hvl | hvr
    · exact hl1 v hvl
    · rcases List.mem_cons.mp hvr with rfl | hvl2
      · simp
      · exact hl2 v hvl2
  refine ⟨by simp [reset_password, hfind], ⟨l1, l2, heq, hstate⟩, hnone, ?_, rfl⟩
  have hnone2 : (l1 ++ { u with password := genHash pw, reset_uuid := none } :: l2).find?
      (fun v => v.reset_uuid == some t) = none := hstate ▸ hnone
  rw [hstate]
  simp [reset_password, hnone2]

/-- Witness for C1: a concrete pending identifier is redeemed once and
rejected on reuse. -/
theorem reset_password_consume_witness :
    (reset_password demoHash demoIssue [demoUserReset] 7 "newpw").2 =
      .ok { access_token := "token-1", token_type := "bearer" }
  ∧ (reset_password demoHash demoIssue
      (reset_password demoHash demoIssue [demoUserReset] 7 "newpw").1 7 "again").2 =
      .error (.notFound "Token not found. Please request a new password reset.") := by
  have h := reset_password_consume demoHash demoIssue [demoUserReset] 7
    "newpw" "again" demoUserReset (by decide) (by decide)
  exact ⟨h.1, h.2.2.2.1⟩

/-- Claim C9: `reset_password` performs no ban check — a banned user
holding a pending reset identifier still redeems it: the hash is
replaced, the identifier cleared, a bearer token returned, and the 403
banned error is never raised. -/
theorem reset_password_ignores_ban (genHash : String → String)
    (issue : User → String) (users : List User) (t : Nat) (pw : String)
    (u : User)
    (hfind : users.find? (fun v => v.reset_uuid == some t) = some u)
    (hban : u.is_banned = true) :
    (reset_password genHash issue users t pw).2 =
      .ok { access_token :=
              issue { u with password := genHash pw, reset_uuid := none },
            token_type := "bearer" }
  ∧ (∃ l1 l2, users = l1 ++ u :: l2 ∧
      (reset_password genHash issue users t pw).1 =
        l1 ++ { u with password := genHash pw, reset_uuid := none } :: l2)
  ∧ ({ u with password := genHash pw, reset_uuid := none } : User).is_banned = true
  ∧ (reset_password genHash issue users t pw).2 ≠ .error .bannedUser := by
  obtain ⟨l1, l2, heq, hl1, hpu⟩ := find?_decomp hfind
  have hok : (reset_password genHash issue users t pw).2 =
      .ok { access_token :=
              issue { u with password := genHash pw, reset_uuid := none },
            token_type := "bearer" } := by
    simp [reset_password, hfind]
  refine ⟨hok, ⟨l1, l2, heq, ?_⟩, by simpa using hban, by rw [hok]; simp⟩
  have hu2 : (reset_password genHash issue users t pw).1 =
      updateFirst (fun v => v.reset_uuid == some t)
        (fun _ => { u with password := genHash pw, reset_uuid := none }) users := by
    simp [reset_password, hfind]
  rw [hu2, heq]
  exact updateFirst_append hl1 hpu

/-- Witness for C9: a concrete banned user redeems a pending reset. -/
theorem reset_password_ignores_ban_witness :
    (reset_password demoHash demoIssue [demoUserBanned] 9 "npw").2 =
      .ok { access_token := "token-3", token_type := "bearer" }
  ∧ (reset_password demoHash demoIssue [demoUserBanned] 9 "npw").2 ≠
      .error .bannedUser := by
  have h := reset_password_ignores_ban demoHash demoIssue [demoUserBanned] 9
    "npw" demoUserBanned (by decide) (by decide)
  exact ⟨h.1, h.2.2.2⟩

/-- Claim C4: a second reset request for the same user overwrites the
first identifier, so the first is no longer redeemable (404) and only
the second redeems successfully; the single `reset_uuid` field keeps
at most one identifier outstanding per user. -/
theorem sequential_reset_requests_supersede (genHash : String → String)
    (issue : User → String) (users : List User) (email : String)
    (f1 f2 : Nat) (pw : String) (u : User)
    (hfind : users.find? (fun v => v.email == pyLower email) = some u)
    (hban : u.is_banned = false)
    (hf1 : ∀ v ∈ users, (v.reset_uuid == some f1) = false)
    (hf2 : ∀ v ∈ users, (v.reset_uuid == some f2) = false)
    (hne : f1 ≠ f2) :
    (reset_password genHash issue
        (request_password_reset f2 true
          (request_password_reset f1 true users email).1 email).1 f1 pw).2 =
      .error (.notFound "Token not found. Please request a new password reset.")
  ∧ (reset_password genHash issue
        (request_password_reset f2 true
          (request_password_reset f1 true users email).1 email).1 f2 pw).2 =
      .ok { access_token :=
              issue { u with password := genHash pw, reset_uuid := none },
            token_type := "bearer" } := by
  obtain ⟨l1, l2, heq, hl1, hpu⟩ := find?_decomp hfind
  have hmem1 : ∀ v ∈ l1, v ∈ users := by
    intro v hv; rw [heq]; exact List.mem_append.mpr (Or.inl hv)
  have hmem2 : ∀ v ∈ l2, v ∈ users := by
    intro v hv; rw [heq]
    exact List.mem_append.mpr (Or.inr (List.mem_cons_of_mem _ hv))
  have h1 : (request_password_reset f1 true users email).1 =
      l1 ++ { u with reset_uuid := some f1 } :: l2 := by
    have hu1 : (request_password_reset f1 true users email).1 =
        updateFirst (fun v => v.email == pyLower email)
          (fun _ => { u with reset_uuid := some f1 }) users := by
      simp [request_password_reset, hfind, hban]
    rw [hu1, heq]
    exact updateFirst_append hl1 hpu
  have hfind1 : (l1 ++ ({ u with reset_uuid := some f1 } : User) :: l2).find?
      (fun v => v.email == pyLower email) =
      some { u with reset_uuid := some f1 } := by
    rw [find?_append_no_match hl1]
    simp [List.find?, hpu]
  have h2 : (request_password_reset f2 true
      (request_password_reset f1 true users email).1 email).1 =
      l1 ++ { u with reset_uuid := some f2 } :: l2 := by
    rw [h1, request_password_reset_state f2 true
      (l1 ++ ({ u with reset_uuid := some f1 } : User) :: l2) email
      ({ u with reset_uuid := some f1 }) hfind1 hban]
    exact updateFirst_append hl1 hpu
  have hnof1 : (l1 ++ ({ u with reset_uuid := some f2 } : User) :: l2).find?
      (fun v => v.reset_uuid == some f1) = none := by
    apply find?_none_of_all
    intro v hv
    rcases List.mem_append.mp hv with hvl | hvr
    · exact hf1 v (hmem1 v hvl)
    · rcases List.mem_cons.mp hvr with rfl | hvl2
      · have hne2 : f2 ≠ f1 := fun h => hne h.symm
        simp [hne2]
      · exact hf1 v (hmem2 v hvl2)
  have hfind2 : (l1 ++ ({ u with reset_uuid := some f2 } : User) :: l2).find?
      (fun v => v.reset_uuid == some f2) =
      some { u with reset_uuid := some f2 } := by
    have hl1f2 : ∀ v ∈ l1, (v.reset_uuid == some f2) = false :=
      fun v hv => hf2 v (hmem1 v hv)
    rw [find?_append_no_match hl1f2]
    simp [List.find?]
  constructor
  · rw [h2]
    simp [reset_password, hnof1]
  · rw [h2]
    simp [reset_password, hfind2]

/-- Witness for C4: two concrete sequential requests; only the second
identifier redeems. -/
theorem sequential_reset_requests_supersede_witness :
    (reset_password demoHash demoIssue
        (request_password_reset 4 true
          (request_password_reset 3 true [demoUserPlain] "bob@example.com").1
          "bob@example.com").1 3 "npw").2 =
      .error (.notFound "Token not found. Please request a new password reset.")
  ∧ (reset_password demoHash demoIssue
        (request_password_reset 4 true
          (request_password_reset 3 true [demoUserPlain] "bob@example.com").1
          "bob@example.com").1 4 "npw").2 =
      .ok { access_token := "token-2", token_type := "bearer" } :=
  sequential_reset_requests_supersede demoHash demoIssue [demoUserPlain]
    "bob@example.com" 3 4 "npw" demoUserPlain (by decide) (by decide)
    (by decide) (by decide) (by decide)

/-- The jti count distributes over store concatenation. -/
theorem countJti_append (s1 s2 : List UserRevokedToken) (jti : Nat) :
    countJti (s1 ++ s2) jti = countJti s1 jti + countJti s2 jti := by
  simp [countJti, List.filter_append]

/-- Claim C8: revoking an already-revoked token id is not an error:
performing the idempotent insert twice with the same jti leaves the
store unchanged the second time, and the token id appears exactly once
afterward (given the at-most-once store invariant beforehand). -/
theorem revoke_idempotent (store : List UserRevokedToken)
    (jti uid : Nat) (expires_at : Int)
    (hinv : countJti store jti ≤ 1) :
    revoke (revoke store jti uid expires_at) jti uid expires_at =
      revoke store jti uid expires_at
  ∧ countJti (revoke store jti uid expires_at) jti = 1
  ∧ countJti (revoke (revoke store jti uid expires_at) jti uid expires_at)
      jti = 1 := by
  cases ha : store.any (fun r => r.revoked_uuid == jti) with
  | true =>
    have h1 : revoke store jti uid expires_at = store :=
      revoke_already store jti uid expires_at ha
    have hge : 1 ≤ countJti store jti := by
      obtain ⟨r, hr, hpr⟩ := List.any_eq_true.mp ha
      have hmem : r ∈ store.filter (fun r2 => r2.revoked_uuid == jti) :=
        List.mem_filter.mpr ⟨hr, hpr⟩
      have hpos := List.length_pos.mpr (List.ne_nil_of_mem hmem)
      simpa [countJti] using hpos
    have hcount : countJti store jti = 1 := le_antisymm hinv hge
    refine ⟨by rw [h1, h1], by rw [h1]; exact hcount, by rw [h1, h1]; exact hcount⟩
  | false =>
    have h0 : countJti store jti = 0 := by
      have hall := List.any_eq_false.mp ha
      simp only [countJti, List.length_eq_zero, List.filter_eq_nil_iff]
      exact fun r hr => hall r hr
    have h1 : revoke store jti uid expires_at =
        store ++ [UserRevokedToken.mk jti uid expires_at] := by
      simp [revoke, ha]
    have hc1 : countJti (revoke store jti uid expires_at) jti = 1 := by
      rw [h1, countJti_append, h0]
      simp [countJti, List.filter_cons]
    have ha2 : (revoke store jti uid expires_at).any
        (fun r => r.revoked_uuid == jti) = true := by
      rw [h1]
      simp [List.any_append]
    have h2 : revoke (revoke store jti uid expires_at) jti uid expires_at =
        revoke store jti uid expires_at :=
      revoke_already _ jti uid expires_at ha2
    exact ⟨h2, hc1, by rw [h2]; exact hc1⟩

/-- Witness for C8: revoking the same jti twice on an empty store. -/
theorem revoke_idempotent_witness :
    revoke (revoke [] 5 1 99) 5 1 99 = revoke [] 5 1 99
  ∧ countJti (revoke [] 5 1 99) 5 = 1
  ∧ countJti (revoke (revoke [] 5 1 99) 5 1 99) 5 = 1 :=
  revoke_idempotent [] 5 1 99 (by decide)
